import Mathlib

/-!
Verification development for the Nexus profile-management microservice
(`src/routes/profile.routes.ts`, `src/middleware/auth.ts`, `src/index.ts`).

The route handlers are embedded shallowly: each handler becomes a pure Lean
function from the request, the relevant database rows and the outcome of any
outbound HTTP call (Identity Gateway / network service) to a response plus the
new database state.  JavaScript truthiness (`x || d`, `if (!x)`) is modelled
explicitly on `Option String` / `Option Nat` (the empty string and 0 are
falsy).  Times (`Date`) are naturals (milliseconds).
-/

namespace NexusProfile

/-- JS truthiness of an optional string: `undefined`/`null` and `""` are falsy. -/
def sTruthy : Option String → Bool
  | some s => s ≠ ""
  | none => false

/-- JS truthiness of an optional number: `undefined`/`null` and `0` are falsy. -/
def nTruthy : Option Nat → Bool
  | some n => n ≠ 0
  | none => false

/-- JS `a || d` for an optional string with a string default. -/
def jsOrS (a : Option String) (d : String) : String :=
  match a with
  | some s => if s = "" then d else s
  | none => d

/-- JS `a || b || ''` for two optional strings. -/
def jsChain2 (a b : Option String) : String :=
  if sTruthy a then a.getD "" else jsOrS b ""

/-- JS `a || d` for an optional number with a numeric default
(`policy?.eventCreationRequired || 8`). -/
def jsOrN (a : Option Nat) (d : Nat) : Nat :=
  match a with
  | some n => if n = 0 then d else n
  | none => d

/-- JS `a || b` on two optional numbers: the first operand if truthy, else the
second operand verbatim. -/
def jsOrON (a b : Option Nat) : Option Nat :=
  if nTruthy a then a else b

/-- JS `a || b || null` on two optional numbers. -/
def jsOrNullN (a b : Option Nat) : Option Nat :=
  if nTruthy a then a else if nTruthy b then b else none

/-- JS `x || null` on an optional string (`collegeResponse.data?.name || null`). -/
def jsOrNullS (a : Option String) : Option String :=
  if sTruthy a then a else none

/-- `.filter(Boolean)` applied to one optional string: keep it only if truthy. -/
def truthyStr : Option String → Option String
  | some s => if s = "" then none else some s
  | none => none

/-- JS `String.prototype.trim()`: strip whitespace from both ends. -/
def jsTrim (s : String) : String :=
  ⟨((s.data.dropWhile Char.isWhitespace).reverse.dropWhile Char.isWhitespace).reverse⟩

/-- JS `String.prototype.toLowerCase()` (ASCII case folding). -/
def jsToLower (s : String) : String :=
  ⟨s.data.map Char.toLower⟩

/-! ## Badge eligibility engine — `GET /v1/badges/eligibility/:userId` -/

/-- The `badge` relation selected by the eligibility query:
`select: { category: true, isActive: true }`. -/
structure BadgeMini where
  category : Option String
  isActive : Bool
  deriving DecidableEq, Repr

/-- One `studentBadge` row joined with its badge definition, as returned by
`prisma.studentBadge.findMany({ where: { studentId: userId }, include: { badge } })`. -/
structure AwardJoin where
  id : String
  badge : BadgeMini
  deriving DecidableEq, Repr

/-- A `BadgePolicy` row (`prisma.badgePolicy.findUnique({ where: { collegeId } })`). -/
structure BadgePolicyRow where
  collegeId : String
  eventCreationRequired : Nat
  categoryDiversityMin : Nat
  isActive : Bool
  deriving DecidableEq, Repr

/-- A `BadgeEligibilityCache` row for one user. -/
structure EligCacheRow where
  userId : String
  canCreate : Bool
  badgeCount : Nat
  categories : List String
  lastChecked : Nat
  expiresAt : Nat
  deriving DecidableEq, Repr

/-- The user object extracted from the Identity Gateway response
(`userResponse.data?.user`); only `collegeId` is read by this endpoint. -/
structure GwUserE where
  collegeId : Option String
  deriving DecidableEq, Repr

/-- Outcome of the `axios.get(authServiceUrl + "/v1/users/" + userId)` call in
the eligibility handler: `err` is any thrown error (timeout, network failure,
non-2xx), `ok uo` is a 2xx response whose `data?.user` is `uo`. -/
inductive EligGw where
  | err : EligGw
  | ok : Option GwUserE → EligGw
  deriving DecidableEq, Repr

/-- The database slice the eligibility handler touches for one user: the
policy row of the user's college, the user's award rows, and the cache row. -/
structure EligDb where
  policy : Option BadgePolicyRow
  awards : List AwardJoin
  cache : Option EligCacheRow
  deriving DecidableEq, Repr

/-- The JSON body replied by the eligibility endpoint; `none` marks a field
absent from the JSON of that branch. -/
structure EligResp where
  status : Nat
  canCreate : Bool
  badgeCount : Option Nat
  categories : Option (List String)
  lastChecked : Option Nat
  requiredBadges : Option Nat
  requiredCategories : Option Nat
  missing : Option (List String)
  deriving DecidableEq, Repr

/-- Result of one eligibility check: the response, the database afterwards,
and whether the handler ran the `studentBadge.findMany` query. -/
structure EligResult where
  resp : EligResp
  db : EligDb
  queriedAwards : Bool
  deriving DecidableEq, Repr

/-- The fresh-computation branch of the eligibility handler (cache miss or
expired): load the policy (`|| 8` / `|| 4` defaults), load the awards, filter
to active badge definitions, deduplicate truthy categories
(`[...new Set(....filter(Boolean))]`), compare against the thresholds, and
upsert the cache row with `expiresAt = now + 30 * 60 * 1000`. -/
def freshCompute (userId : String) (nowT : Nat) (db : EligDb) : EligResult :=
  let requiredBadges := jsOrN (db.policy.map (fun p => p.eventCreationRequired)) 8
  let requiredCategories := jsOrN (db.policy.map (fun p => p.categoryDiversityMin)) 4
  let activeBadges := db.awards.filter (fun a => a.badge.isActive)
  let categories := (activeBadges.filterMap (fun a => truthyStr a.badge.category)).eraseDups
  let canCreate := decide (requiredBadges ≤ activeBadges.length)
      && decide (requiredCategories ≤ categories.length)
  let newCache : EligCacheRow :=
    { userId := userId
      canCreate := canCreate
      badgeCount := activeBadges.length
      categories := categories
      lastChecked := nowT
      expiresAt := nowT + 30 * 60 * 1000 }
  { resp :=
      { status := 200
        canCreate := canCreate
        badgeCount := some activeBadges.length
        categories := some categories
        lastChecked := some nowT
        requiredBadges := some requiredBadges
        requiredCategories := some requiredCategories
        missing := none }
    db := { db with cache := some newCache }
    queriedAwards := true }

/-- `GET /v1/badges/eligibility/:userId`.  The handler first calls the
Identity Gateway: a thrown gateway error lands in the outer `catch` (500,
`canCreate: false`); a user without a truthy `collegeId` yields 400 with
`canCreate: false, missing: []`.  Only then is the cache row consulted; an
unexpired row (`now < expiresAt`) is returned verbatim, otherwise the result
is recomputed by `freshCompute`. -/
def checkEligibility (userId : String) (gw : EligGw) (nowT : Nat) (db : EligDb) : EligResult :=
  match gw with
  | EligGw.err =>
      { resp := { status := 500, canCreate := false, badgeCount := none, categories := none,
                  lastChecked := none, requiredBadges := none, requiredCategories := none,
                  missing := none }
        db := db
        queriedAwards := false }
  | EligGw.ok uo =>
      let cid := uo.bind (fun u => u.collegeId)
      if !(sTruthy cid) then
        { resp := { status := 400, canCreate := false, badgeCount := none, categories := none,
                    lastChecked := none, requiredBadges := none, requiredCategories := none,
                    missing := some [] }
          db := db
          queriedAwards := false }
      else
        match db.cache with
        | some c =>
            if nowT < c.expiresAt then
              { resp := { status := 200, canCreate := c.canCreate,
                          badgeCount := some c.badgeCount, categories := some c.categories,
                          lastChecked := some c.lastChecked, requiredBadges := none,
                          requiredCategories := none, missing := none }
                db := db
                queriedAwards := false }
            else freshCompute userId nowT db
        | none => freshCompute userId nowT db

/-- The gateway resolved the user to a college: a 2xx response carrying a
user with a truthy `collegeId`. -/
def resolvesCollege (gw : EligGw) : Prop :=
  ∃ u, gw = EligGw.ok (some u) ∧ sTruthy u.collegeId = true

/-- The cache is missing or expired at time `nowT`. -/
def cacheStale (nowT : Nat) (db : EligDb) : Prop :=
  ∀ c, db.cache = some c → c.expiresAt ≤ nowT

/-- Spec-side count used by the claim: the number of distinct non-null
category values among the awards whose badge definition is active. -/
def distinctNonNullCategories (awards : List AwardJoin) : Nat :=
  (((awards.filter (fun a => a.badge.isActive)).filterMap
      (fun a => a.badge.category)).eraseDups).length

/-- Spec-side threshold: the policy's `eventCreationRequired`, or 8 when no
policy row exists. -/
def specRequiredBadges (db : EligDb) : Nat :=
  match db.policy with
  | some p => p.eventCreationRequired
  | none => 8

/-- Spec-side threshold: the policy's `categoryDiversityMin`, or 4 when no
policy row exists. -/
def specRequiredCategories (db : EligDb) : Nat :=
  match db.policy with
  | some p => p.categoryDiversityMin
  | none => 4

/-! ## Badge award — `POST /v1/badges/award` and `createBadgeAwardPost` -/

/-- The `user` object of the Identity Gateway body, as used by the award
endpoint and the post content (`studentInfo`). -/
structure StudentInfoA where
  displayName : Option String
  name : Option String
  deriving DecidableEq, Repr

/-- Outcome of `axios.get(authServiceUrl + "/v1/users/" + data.userId)` in the
award handler.  `ok body` is a 2xx response; `body = none` models a falsy
`userResponse.data`, `body = some uo` carries `userResponse.data.user = uo`.
`httpErr s` is a thrown error with `error.response.status = s`; `netErr` is a
thrown error with no `error.response` (network failure / timeout). -/
inductive GwAwardRes where
  | ok : Option (Option StudentInfoA) → GwAwardRes
  | httpErr : Nat → GwAwardRes
  | netErr : GwAwardRes
  deriving DecidableEq, Repr

/-- Outcome of the `fetch(networkServiceUrl + "/v1/posts/specialized")` call
inside `createBadgeAwardPost`. -/
inductive PostOutcome where
  | success : PostOutcome
  | non2xx : PostOutcome
  | netFail : PostOutcome
  deriving DecidableEq, Repr

/-- `createBadgeAwardPost`: returns `(attempted, threw)`.  When
`BADGE_AUTO_POST_ENABLED` is exactly the string `'false'` the function returns
before any outbound call (`attempted = false`).  Otherwise the `fetch` is
attempted; a non-2xx response (`!response.ok`) or a network failure makes the
function throw (the caller's `try`/`catch` swallows it).  The post body
content itself is not modelled. -/
def createBadgeAwardPost (autoPostFlag : Option String) (outcome : PostOutcome) :
    Bool × Bool :=
  if autoPostFlag = some "false" then (false, false)
  else
    match outcome with
    | PostOutcome.success => (true, false)
    | PostOutcome.non2xx => (true, true)
    | PostOutcome.netFail => (true, true)

/-- A `StudentBadge` row as created by the award endpoint. -/
structure StudentBadgeRow where
  id : String
  studentId : String
  badgeId : String
  awardedBy : String
  reason : String
  projectId : Option String
  eventId : Option String
  awardedByName : Option String
  awardedAt : Nat
  deriving DecidableEq, Repr

/-- The validated body of `POST /v1/badges/award` (`awardBadgeSchema`). -/
structure AwardReq where
  badgeDefinitionId : String
  userId : String
  reason : String
  projectId : Option String
  eventId : Option String
  awardedByName : Option String
  deriving DecidableEq, Repr

/-- The persistent state the award endpoint touches: the set of existing
profile userIds (the `profile.upsert` only ensures existence, its `update`
clause is `{}`) and the `studentBadge` table. -/
structure AwardState where
  profileUserIds : List String
  studentBadges : List StudentBadgeRow
  deriving DecidableEq, Repr

/-- Result of one award request: HTTP status, state afterwards, and whether
the outbound notification `fetch` was attempted. -/
structure AwardResult where
  status : Nat
  state : AwardState
  eventAttempted : Bool
  deriving DecidableEq, Repr

/-- The `studentBadge.create` data of the award endpoint. -/
def mkAwardRow (req : AwardReq) (caller : String) (freshAwardId : String)
    (nowT : Nat) : StudentBadgeRow :=
  { id := freshAwardId
    studentId := req.userId
    badgeId := req.badgeDefinitionId
    awardedBy := caller
    reason := req.reason
    projectId := req.projectId
    eventId := req.eventId
    awardedByName := req.awardedByName
    awardedAt := nowT }

/-- `POST /v1/badges/award` (after `requireAuth` and the role check).
Step 1 verifies the target user through the gateway: a falsy body or a 404
from the gateway rejects with 404 and touches nothing; any other thrown
gateway error rejects with 500 and touches nothing.  Then the target profile
is upserted, the award row is created, and `createBadgeAwardPost` runs inside
a `try`/`catch` whose failure never changes the 201 response. -/
def awardBadge (gw : GwAwardRes) (autoPostFlag : Option String) (post : PostOutcome)
    (req : AwardReq) (caller : String) (freshAwardId : String) (nowT : Nat)
    (st : AwardState) : AwardResult :=
  match gw with
  | GwAwardRes.httpErr s =>
      if s = 404 then { status := 404, state := st, eventAttempted := false }
      else { status := 500, state := st, eventAttempted := false }
  | GwAwardRes.netErr => { status := 500, state := st, eventAttempted := false }
  | GwAwardRes.ok body =>
      match body with
      | none => { status := 404, state := st, eventAttempted := false }
      | some _studentInfo =>
          let profiles1 :=
            if st.profileUserIds.contains req.userId then st.profileUserIds
            else st.profileUserIds ++ [req.userId]
          let newRow := mkAwardRow req caller freshAwardId nowT
          let st2 : AwardState :=
            { profileUserIds := profiles1
              studentBadges := st.studentBadges ++ [newRow] }
          let postRes := createBadgeAwardPost autoPostFlag post
          { status := 201, state := st2, eventAttempted := postRes.1 }

/-- The gateway reported that the target user does not exist: either a 2xx
response with a falsy body, or a thrown error whose response status is 404. -/
def gwReportsNoUser (gw : GwAwardRes) : Prop :=
  gw = GwAwardRes.ok none ∨ gw = GwAwardRes.httpErr 404

/-- The gateway call failed for a reason other than not-found. -/
def gwOtherFailure (gw : GwAwardRes) : Prop :=
  gw = GwAwardRes.netErr ∨ ∃ s, s ≠ 404 ∧ gw = GwAwardRes.httpErr s

/-! ## Profile enrichment — `GET /v1/profile/me` and `GET /v1/profile/user/:userId` -/

/-- An `Experience` row. -/
structure ExperienceRow where
  id : String
  userId : String
  area : String
  level : String
  yearsExp : Option Nat
  description : Option String
  deriving DecidableEq, Repr

/-- A `PersonalProject` row. -/
structure PersonalProjectRow where
  id : String
  userId : String
  title : String
  description : String
  github : Option String
  demoLink : Option String
  image : Option String
  createdAt : Nat
  deriving DecidableEq, Repr

/-- A `Publication` row. -/
structure PublicationRow where
  id : String
  userId : String
  title : String
  year : Nat
  link : Option String
  createdAt : Nat
  deriving DecidableEq, Repr

/-- A `Profile` row together with the relations the enrichment queries
`include` (`personalProjects`, `publications`, `experiences`,
`studentBadges`; the badge join is reused from the eligibility model). -/
structure ProfileRow where
  id : String
  userId : String
  name : Option String
  bio : Option String
  skills : List String
  expertise : List String
  linkedIn : Option String
  github : Option String
  twitter : Option String
  resumeUrl : Option String
  contactInfo : Option String
  phoneNumber : Option String
  alternateEmail : Option String
  department : Option String
  year : Option Nat
  createdAt : Nat
  personalProjects : List PersonalProjectRow
  publications : List PublicationRow
  experiences : List ExperienceRow
  studentBadges : List AwardJoin
  deriving DecidableEq, Repr

/-- The gateway user record read by the enrichment handlers
(`response.data.user`). -/
structure UserInfoE where
  displayName : Option String
  email : Option String
  avatarUrl : Option String
  collegeId : Option String
  collegeMemberId : Option String
  department : Option String
  year : Option Nat
  roles : List String
  createdAt : Option Nat
  deriving DecidableEq, Repr

/-- Outcome of the enrichment handler's `axios.get(... "/v1/users/" ...)`
call: `err` is any thrown error (timeout, non-2xx, network failure), which
the handler's `catch` absorbs; `ok uo` is a 2xx response with
`response.data.user = uo`. -/
inductive GwEnrich where
  | err : GwEnrich
  | ok : Option UserInfoE → GwEnrich
  deriving DecidableEq, Repr

/-- Outcome of the nested `axios.get(... "/v1/colleges/" ...)` call:
a thrown error is absorbed by the inner `catch` (college name stays null);
`ok n` is a 2xx response with `collegeResponse.data?.name = n`. -/
inductive CollegeFetch where
  | err : CollegeFetch
  | ok : Option String → CollegeFetch
  deriving DecidableEq, Repr

/-- The enhanced profile JSON composed at the end of both enrichment
handlers. -/
structure EnhancedProfile where
  id : String
  userId : String
  name : String
  displayName : String
  email : String
  avatarUrl : String
  bio : String
  skills : List String
  linkedIn : String
  github : String
  twitter : String
  resumeUrl : String
  contactInfo : String
  phoneNumber : String
  alternateEmail : String
  collegeName : Option String
  collegeId : String
  collegeMemberId : String
  department : String
  year : Option Nat
  roles : List String
  joinedAt : Option Nat
  experiences : List ExperienceRow
  badges : List AwardJoin
  projects : List PersonalProjectRow
  publications : List PublicationRow
  deriving DecidableEq, Repr

/-- The profile row created by the backfill `upsert`'s `create` branch
(`{ userId, name: userInfo.displayName, skills: [], expertise: [] }`; `id`
and `createdAt` are generated by the store). -/
def blankProfileWithName (freshId userId : String) (nameV : Option String)
    (nowT : Nat) : ProfileRow :=
  { id := freshId
    userId := userId
    name := nameV
    bio := none
    skills := []
    expertise := []
    linkedIn := none
    github := none
    twitter := none
    resumeUrl := none
    contactInfo := none
    phoneNumber := none
    alternateEmail := none
    department := none
    year := none
    createdAt := nowT
    personalProjects := []
    publications := []
    experiences := []
    studentBadges := [] }

/-- Shared body of `GET /v1/profile/me` and `GET /v1/profile/user/:userId`
(the two handlers are verbatim duplicates in the source).  Returns the
enhanced profile and the stored profile row afterwards.

1. `initialProfile` is the stored row (with includes); may be absent.
2. The gateway `try` block: on error, `userInfo` and `collegeName` stay null;
   the college fetch runs only for a truthy `userInfo?.collegeId`, its own
   failure only nulls the college name.
3. Backfill: if `userInfo?.displayName` is truthy and the stored row is
   absent or has a falsy `name`, upsert the row's `name` to the display name.
4. Compose: local fields take precedence through JS `||` chains. -/
def enrichHandler (userId freshId : String) (nowT : Nat)
    (initialProfile : Option ProfileRow) (gw : GwEnrich) (cg : CollegeFetch) :
    EnhancedProfile × Option ProfileRow :=
  let userInfo : Option UserInfoE :=
    match gw with
    | GwEnrich.err => none
    | GwEnrich.ok uo => uo
  let collegeName : Option String :=
    match userInfo with
    | some u =>
        if sTruthy u.collegeId then
          match cg with
          | CollegeFetch.err => none
          | CollegeFetch.ok n => jsOrNullS n
        else none
    | none => none
  let profile : Option ProfileRow :=
    match userInfo with
    | some u =>
        if sTruthy u.displayName
            && (match initialProfile with
                | none => true
                | some p => !(sTruthy p.name)) then
          match initialProfile with
          | some p => some { p with name := u.displayName }
          | none => some (blankProfileWithName freshId userId u.displayName nowT)
        else initialProfile
    | none => initialProfile
  let enhanced : EnhancedProfile :=
    { id := jsOrS (profile.map (fun p => p.id)) ""
      userId := userId
      name := jsChain2 (profile.bind (fun p => p.name)) (userInfo.bind (fun u => u.displayName))
      displayName := jsOrS (userInfo.bind (fun u => u.displayName)) ""
      email := jsOrS (userInfo.bind (fun u => u.email)) ""
      avatarUrl := jsOrS (userInfo.bind (fun u => u.avatarUrl)) ""
      bio := jsOrS (profile.bind (fun p => p.bio)) ""
      skills := (profile.map (fun p => p.skills)).getD []
      linkedIn := jsOrS (profile.bind (fun p => p.linkedIn)) ""
      github := jsOrS (profile.bind (fun p => p.github)) ""
      twitter := jsOrS (profile.bind (fun p => p.twitter)) ""
      resumeUrl := jsOrS (profile.bind (fun p => p.resumeUrl)) ""
      contactInfo := jsOrS (profile.bind (fun p => p.contactInfo)) ""
      phoneNumber := jsOrS (profile.bind (fun p => p.phoneNumber)) ""
      alternateEmail := jsOrS (profile.bind (fun p => p.alternateEmail)) ""
      collegeName := collegeName
      collegeId := jsOrS (userInfo.bind (fun u => u.collegeId)) ""
      collegeMemberId := jsOrS (userInfo.bind (fun u => u.collegeMemberId)) ""
      department := jsChain2 (profile.bind (fun p => p.department)) (userInfo.bind (fun u => u.department))
      year := jsOrNullN (profile.bind (fun p => p.year)) (userInfo.bind (fun u => u.year))
      roles := (userInfo.map (fun u => u.roles)).getD []
      joinedAt := jsOrON (userInfo.bind (fun u => u.createdAt)) (profile.map (fun p => p.createdAt))
      experiences := (profile.map (fun p => p.experiences)).getD []
      badges := (profile.map (fun p => p.studentBadges)).getD []
      projects := (profile.map (fun p => p.personalProjects)).getD []
      publications := (profile.map (fun p => p.publications)).getD [] }
  (enhanced, profile)

/-- `GET /v1/profile/me` (userId is the authenticated caller's `sub`). -/
def getProfileMe (callerSub freshId : String) (nowT : Nat)
    (stored : Option ProfileRow) (gw : GwEnrich) (cg : CollegeFetch) :
    EnhancedProfile × Option ProfileRow :=
  enrichHandler callerSub freshId nowT stored gw cg

/-- `GET /v1/profile/user/:userId` (userId is the path parameter). -/
def getProfileUserById (userId freshId : String) (nowT : Nat)
    (stored : Option ProfileRow) (gw : GwEnrich) (cg : CollegeFetch) :
    EnhancedProfile × Option ProfileRow :=
  enrichHandler userId freshId nowT stored gw cg

/-! ## Authentication middleware — `requireAuth` / `requireRole`
(`src/middleware/auth.ts`)

Token verification (`verifyAccessToken`, `src/utils/jwt.ts`) is an external
collaborator and is abstracted as a function `verify : String → Option
TokenPayload` (`none` models a thrown verification error).  Fastify's reply
object sends at most once: once a hook has replied, a later `send` (including
the framework's own error responder) cannot overwrite the response. -/

/-- The decoded JWT payload fields read by `requireAuth`. -/
structure TokenPayload where
  sub : String
  email : Option String
  roles : Option (List String)
  name : Option String
  deriving DecidableEq, Repr

/-- The request-scoped user object attached by `requireAuth`. -/
structure UserCtx where
  sub : String
  id : String
  email : String
  roles : List String
  displayName : Option String
  deriving DecidableEq, Repr

/-- An HTTP reply (status and message). -/
structure Resp where
  status : Nat
  message : String
  deriving DecidableEq, Repr

/-- The request surface the middleware reads: the `authorization` header. -/
structure AuthReq where
  authHeader : Option String
  deriving DecidableEq, Repr

/-- Fastify send-once semantics: `reply.send` has no effect once a reply was
already sent. -/
def replySend (sent : Option Resp) (r : Resp) : Option Resp :=
  match sent with
  | some r0 => some r0
  | none => some r

/-- `requireAuth`: returns the reply sent (if any) and the `request.user`
attached (if authentication succeeded).  A header that is absent or does not
start with `"Bearer "` yields 401 "Missing authorization token"; a token the
verifier rejects yields 401 "Invalid or expired token".  On success the user
context is built from the payload (`email || ""`, `roles || []`). -/
def requireAuth (verify : String → Option TokenPayload) (req : AuthReq) :
    Option Resp × Option UserCtx :=
  match req.authHeader with
  | none => (some { status := 401, message := "Missing authorization token" }, none)
  | some auth =>
      if auth.startsWith "Bearer " then
        match verify (auth.drop 7) with
        | some payload =>
            (none,
             some { sub := payload.sub
                    id := payload.sub
                    email := payload.email.getD ""
                    roles := payload.roles.getD []
                    displayName := payload.name })
        | none => (some { status := 401, message := "Invalid or expired token" }, none)
      else (some { status := 401, message := "Missing authorization token" }, none)

/-- `requireRole(roles)`: awaits `requireAuth` but ignores its outcome, then
reads `request.user`.  When authentication failed, `request.user` is
undefined and `user.roles` throws a TypeError; the framework's error handler
then attempts a 500, which cannot overwrite the 401 already sent
(`replySend`).  When authentication succeeded, a caller whose roles do not
intersect the required set receives 403.  The result is the reply sent by the
hook chain (`none` = fall through to the route handler). -/
def requireRole (verify : String → Option TokenPayload) (roles : List String)
    (req : AuthReq) : Option Resp :=
  let auth := requireAuth verify req
  match auth.2 with
  | none => replySend auth.1 { status := 500, message := "Internal Server Error" }
  | some user =>
      if roles.any (fun role => user.roles.contains role) then auth.1
      else replySend auth.1 { status := 403, message := "Insufficient permissions" }

/-- The request carries a missing or invalid bearer credential: no
`authorization` header, a header without the `"Bearer "` scheme, or a token
the verifier rejects. -/
def missingOrInvalidCred (verify : String → Option TokenPayload) (req : AuthReq) : Prop :=
  match req.authHeader with
  | none => True
  | some auth => auth.startsWith "Bearer " = false ∨ verify (auth.drop 7) = none

/-! ## Skills endpoints -/

/-- Result of a skills endpoint: HTTP status, the stored skills list
afterwards (`none` = still no profile row), and the `skills` array of a 200
response (`none` on a 400 error reply). -/
structure SkillsRes where
  status : Nat
  stored : Option (List String)
  responseSkills : Option (List String)
  deriving DecidableEq, Repr

/-- `PUT /v1/profile/me/skills`: trim every entry, drop empties, keep the
first 50 (`.slice(0, 50)`), and upsert the result (the prior stored list is
overwritten unconditionally). -/
def updateSkills (_stored : Option (List String)) (skills : List String) : SkillsRes :=
  let cleanedSkills := ((skills.map jsTrim).filter (fun s => 0 < s.length)).take 50
  { status := 200, stored := some cleanedSkills, responseSkills := some cleanedSkills }

/-- `POST /v1/profile/me/skills`: reject a blank skill (400), a
case-insensitive duplicate (400), or a list already at 50 entries (400);
otherwise append the trimmed skill and upsert. -/
def addSkill (stored : Option (List String)) (skillRaw : String) : SkillsRes :=
  let cleanedSkill := jsTrim skillRaw
  if cleanedSkill = "" then { status := 400, stored := stored, responseSkills := none }
  else
    let currentSkills := stored.getD []
    if currentSkills.any (fun s => jsToLower s == jsToLower cleanedSkill) then
      { status := 400, stored := stored, responseSkills := none }
    else if 50 ≤ currentSkills.length then
      { status := 400, stored := stored, responseSkills := none }
    else
      let updatedSkills := currentSkills ++ [cleanedSkill]
      { status := 200, stored := some updatedSkills, responseSkills := some updatedSkills }

/-- `DELETE /v1/profile/me/skills/:skill`: filter out entries equal to the
decoded skill (exact comparison) and upsert the result.  `decodeURIComponent`
is modelled by taking the parameter already decoded. -/
def removeSkill (stored : Option (List String)) (skillDecoded : String) : SkillsRes :=
  let currentSkills := stored.getD []
  let updatedSkills := currentSkills.filter (fun s => !(s == skillDecoded))
  { status := 200, stored := some updatedSkills, responseSkills := some updatedSkills }

/-- Spec-side cleaning of a bulk skills submission: whitespace-trimmed,
empty entries removed, truncated to the first 50 in submission order. -/
def cleanSkillsSpec (skills : List String) : List String :=
  ((skills.map jsTrim).filter (fun s => s ≠ "")).take 50

/-! ## Ownership-guarded sub-entity mutations

Each mutating endpoint looks the resource up constrained to the caller's
profile (`findFirst({ id, profile: { userId: caller } })`, or `findUnique`
plus an explicit owner comparison for the experience delete) and replies 404
when the lookup fails, before performing the update/delete. -/

/-- `PUT /v1/profiles/me/projects/:projectId` body. -/
structure PersonalProjectInput where
  title : String
  description : String
  github : Option String
  demoLink : Option String
  image : Option String
  deriving DecidableEq, Repr

/-- `PUT /v1/profiles/me/publications/:publicationId` body. -/
structure PublicationInput where
  title : String
  year : Nat
  link : Option String
  deriving DecidableEq, Repr

/-- `PUT /v1/profile/experiences/:id` body. -/
structure ExperienceInput where
  area : String
  level : String
  yearsExp : Option Nat
  description : Option String
  deriving DecidableEq, Repr

/-- `PUT /v1/profiles/me/projects/:projectId`. -/
def updatePersonalProject (db : List PersonalProjectRow) (caller projectId : String)
    (inp : PersonalProjectInput) : Nat × List PersonalProjectRow :=
  match db.find? (fun r => r.id == projectId && r.userId == caller) with
  | none => (404, db)
  | some _ =>
      (200, db.map (fun r =>
        if r.id == projectId then
          { r with title := inp.title, description := inp.description,
                   github := inp.github, demoLink := inp.demoLink, image := inp.image }
        else r))

/-- `DELETE /v1/profiles/me/projects/:projectId`. -/
def deletePersonalProject (db : List PersonalProjectRow) (caller projectId : String) :
    Nat × List PersonalProjectRow :=
  match db.find? (fun r => r.id == projectId && r.userId == caller) with
  | none => (404, db)
  | some _ => (204, db.filter (fun r => !(r.id == projectId)))

/-- `PUT /v1/profiles/me/publications/:publicationId`. -/
def updatePublication (db : List PublicationRow) (caller publicationId : String)
    (inp : PublicationInput) : Nat × List PublicationRow :=
  match db.find? (fun r => r.id == publicationId && r.userId == caller) with
  | none => (404, db)
  | some _ =>
      (200, db.map (fun r =>
        if r.id == publicationId then
          { r with title := inp.title, year := inp.year, link := inp.link }
        else r))

/-- `DELETE /v1/profiles/me/publications/:publicationId`. -/
def deletePublication (db : List PublicationRow) (caller publicationId : String) :
    Nat × List PublicationRow :=
  match db.find? (fun r => r.id == publicationId && r.userId == caller) with
  | none => (404, db)
  | some _ => (204, db.filter (fun r => !(r.id == publicationId)))

/-- `PUT /v1/profile/experiences/:id`. -/
def updateExperience (db : List ExperienceRow) (caller experienceId : String)
    (inp : ExperienceInput) : Nat × List ExperienceRow :=
  match db.find? (fun r => r.id == experienceId && r.userId == caller) with
  | none => (404, db)
  | some _ =>
      (200, db.map (fun r =>
        if r.id == experienceId then
          { r with area := inp.area, level := inp.level,
                   yearsExp := inp.yearsExp, description := inp.description }
        else r))

/-- `DELETE /v1/profile/experiences/:id`: `findUnique({ id })` including the
owning profile, then an explicit `profile.userId !== userId` check. -/
def deleteExperience (db : List ExperienceRow) (caller experienceId : String) :
    Nat × List ExperienceRow :=
  match db.find? (fun r => r.id == experienceId) with
  | none => (404, db)
  | some e =>
      if e.userId != caller then (404, db)
      else (200, db.filter (fun r => !(r.id == experienceId)))

/-! ## Supporting lemmas -/

/-- `jsOrN` of a positive policy field is the field itself. -/
theorem jsOrN_of_pos (a : Option Nat) (d : Nat) (h : ∀ n, a = some n → 1 ≤ n) :
    jsOrN a d = match a with | some n => n | none => d := by
  cases a with
  | none => rfl
  | some n =>
      have hn : n ≠ 0 := Nat.one_le_iff_ne_zero.mp (h n rfl)
      simp [jsOrN, hn]

/-- `.filter(Boolean)` over categories that are never the empty string is the
plain non-null filter. -/
theorem filterMap_truthyStr_eq (l : List AwardJoin)
    (h : ∀ a ∈ l, a.badge.category ≠ some "") :
    l.filterMap (fun a => truthyStr a.badge.category)
      = l.filterMap (fun a => a.badge.category) := by
  induction l with
  | nil => rfl
  | cons a t ih =>
      have ha : truthyStr a.badge.category = a.badge.category := by
        cases hc : a.badge.category with
        | none => rfl
        | some s =>
            have hs : s ≠ "" := by
              intro hs0
              exact h a (List.mem_cons_self a t) (by rw [hc, hs0])
            simp [truthyStr, hs]
      have ht := ih (fun b hb => h b (List.mem_cons_of_mem a hb))
      simp only [List.filterMap_cons, ha, ht]

/-- The `canCreate` value of a fresh eligibility computation is the
conjunction of the two threshold checks, with the spec-side thresholds and
the spec-side distinct non-null category count. -/
theorem freshCompute_canCreate_iff (userId : String) (nowT : Nat) (db : EligDb)
    (hpol : ∀ p, db.policy = some p →
      1 ≤ p.eventCreationRequired ∧ 1 ≤ p.categoryDiversityMin)
    (hcat : ∀ a ∈ db.awards, a.badge.category ≠ some "") :
    ((freshCompute userId nowT db).resp.canCreate = true ↔
      (specRequiredBadges db ≤ (db.awards.filter (fun a => a.badge.isActive)).length ∧
       specRequiredCategories db ≤ distinctNonNullCategories db.awards)) := by
  have hrb : jsOrN (db.policy.map (fun p => p.eventCreationRequired)) 8
      = specRequiredBadges db := by
    cases hp : db.policy with
    | none => simp [jsOrN, specRequiredBadges, hp]
    | some p =>
        have := (hpol p hp).1
        simp [jsOrN, specRequiredBadges, hp, Nat.one_le_iff_ne_zero.mp this]
  have hrc : jsOrN (db.policy.map (fun p => p.categoryDiversityMin)) 4
      = specRequiredCategories db := by
    cases hp : db.policy with
    | none => simp [jsOrN, specRequiredCategories, hp]
    | some p =>
        have := (hpol p hp).2
        simp [jsOrN, specRequiredCategories, hp, Nat.one_le_iff_ne_zero.mp this]
  have hcat' : ∀ a ∈ db.awards.filter (fun a => a.badge.isActive),
      a.badge.category ≠ some "" :=
    fun a ha => hcat a (List.mem_of_mem_filter ha)
  have hcats : ((db.awards.filter (fun a => a.badge.isActive)).filterMap
        (fun a => truthyStr a.badge.category)).eraseDups.length
      = distinctNonNullCategories db.awards := by
    rw [filterMap_truthyStr_eq _ hcat']
    rfl
  simp only [freshCompute, Bool.and_eq_true, decide_eq_true_eq, hrb, hrc, hcats]

/-- Under a resolvable college and a stale (missing or expired) cache, the
eligibility check takes the fresh-computation branch. -/
theorem checkEligibility_fresh (userId : String) (gw : EligGw) (nowT : Nat)
    (db : EligDb) (hcol : resolvesCollege gw) (hstale : cacheStale nowT db) :
    checkEligibility userId gw nowT db = freshCompute userId nowT db := by
  obtain ⟨u, rfl, hcid⟩ := hcol
  cases hc : db.cache with
  | none => simp [checkEligibility, Option.bind, hcid, hc]
  | some c =>
      have hle : ¬ (nowT < c.expiresAt) := Nat.not_lt.mpr (hstale c hc)
      simp [checkEligibility, Option.bind, hcid, hc, hle]

/-! ## Claim theorems -/

/-- Example database for C1: eight awards over active badges covering four
distinct categories, no policy row (defaults 8/4), no cache row. -/
def exDb84 : EligDb :=
  { policy := none
    awards :=
      [ ⟨"a1", ⟨some "A", true⟩⟩, ⟨"a2", ⟨some "B", true⟩⟩,
        ⟨"a3", ⟨some "C", true⟩⟩, ⟨"a4", ⟨some "D", true⟩⟩,
        ⟨"a5", ⟨some "A", true⟩⟩, ⟨"a6", ⟨some "B", true⟩⟩,
        ⟨"a7", ⟨some "C", true⟩⟩, ⟨"a8", ⟨some "D", true⟩⟩ ]
    cache := none }

/-- Example database for C1: eight active awards over only three distinct
categories, no policy row, no cache row. -/
def exDb83 : EligDb :=
  { policy := none
    awards :=
      [ ⟨"b1", ⟨some "A", true⟩⟩, ⟨"b2", ⟨some "B", true⟩⟩,
        ⟨"b3", ⟨some "C", true⟩⟩, ⟨"b4", ⟨some "A", true⟩⟩,
        ⟨"b5", ⟨some "B", true⟩⟩, ⟨"b6", ⟨some "C", true⟩⟩,
        ⟨"b7", ⟨some "A", true⟩⟩, ⟨"b8", ⟨some "B", true⟩⟩ ]
    cache := none }

/-- C1: for every fresh (cache-miss or expired) eligibility computation for a
user with a resolvable college, `canCreate` is true iff the number of awards
with an active badge definition reaches the policy's `eventCreationRequired`
(8 when no policy row exists) and the number of distinct non-null categories
among those active awards reaches the policy's `categoryDiversityMin` (4 when
no policy row exists); in particular 8 active badges over 4 distinct
categories under the default thresholds yield `canCreate = true`, and 8
active badges over 3 distinct categories yield `canCreate = false`.
(The hypotheses record that stored policy thresholds are ≥ 1 — the policy
endpoint validates `min(1)` — and that stored categories are never the empty
string — the badge-definition endpoint only stores non-blank categories.) -/
theorem c1_fresh_eligibility_iff_thresholds
    (userId : String) (gw : EligGw) (nowT : Nat) (db : EligDb)
    (hcol : resolvesCollege gw) (hstale : cacheStale nowT db)
    (hpol : ∀ p, db.policy = some p →
      1 ≤ p.eventCreationRequired ∧ 1 ≤ p.categoryDiversityMin)
    (hcat : ∀ a ∈ db.awards, a.badge.category ≠ some "") :
    ((checkEligibility userId gw nowT db).resp.canCreate = true ↔
      (specRequiredBadges db ≤ (db.awards.filter (fun a => a.badge.isActive)).length ∧
       specRequiredCategories db ≤ distinctNonNullCategories db.awards))
    ∧ (checkEligibility "u1" (EligGw.ok (some ⟨some "college1"⟩)) 0 exDb84).resp.canCreate
        = true
    ∧ (checkEligibility "u1" (EligGw.ok (some ⟨some "college1"⟩)) 0 exDb83).resp.canCreate
        = false := by
  refine ⟨?_, by decide, by decide⟩
  rw [checkEligibility_fresh userId gw nowT db hcol hstale]
  exact freshCompute_canCreate_iff userId nowT db hpol hcat

/-- C1 witness: the general theorem applied to the concrete 8-badge/4-category
example with default thresholds. -/
theorem c1_witness :
    (checkEligibility "u1" (EligGw.ok (some ⟨some "college1"⟩)) 0 exDb84).resp.canCreate
      = true :=
  (c1_fresh_eligibility_iff_thresholds "u1" (EligGw.ok (some ⟨some "college1"⟩)) 0 exDb84
      ⟨⟨some "college1"⟩, rfl, by decide⟩
      (by intro c h; cases h)
      (by intro p h; cases h)
      (by decide)).1.mpr (by decide)

/-- Cache row for the C2 counterexample: a valid, unexpired entry with
`canCreate = true`. -/
def c2CacheRow : EligCacheRow :=
  { userId := "u2"
    canCreate := true
    badgeCount := 9
    categories := ["A", "B", "C", "D"]
    lastChecked := 100
    expiresAt := 1000 }

/-- Database for the C2 counterexample: the fresh cache row is present. -/
def c2Db : EligDb :=
  { policy := none, awards := [], cache := some c2CacheRow }

/-- C2 counterexample: at time 5 the cache row is unexpired (`5 < 1000`) and
holds `canCreate = true`, yet with the Identity Gateway unavailable the
eligibility check replies 500 with `canCreate = false` and none of the cached
fields — the gateway call precedes the cache lookup, so the claim's
"including when the Identity Gateway is unavailable" fails. -/
theorem c2_counterexample_gateway_down_ignores_cache :
    5 < c2CacheRow.expiresAt ∧ c2Db.cache = some c2CacheRow ∧
    c2CacheRow.canCreate = true ∧
    (checkEligibility "u2" EligGw.err 5 c2Db).resp.status = 500 ∧
    (checkEligibility "u2" EligGw.err 5 c2Db).resp.canCreate = false ∧
    (checkEligibility "u2" EligGw.err 5 c2Db).resp.badgeCount = none ∧
    (checkEligibility "u2" EligGw.err 5 c2Db).resp.lastChecked = none := by
  decide

/-- C2 (amended): for every eligibility check where the Identity Gateway
resolves the user to a college and an unexpired cache row exists
(`now < expiresAt`), the cached `canCreate`, `badgeCount`, `categories` and
`lastChecked` are returned verbatim, the database is untouched and the award
table is not queried; but the gateway call precedes the cache lookup, so when
the gateway is unavailable the check fails with 500, and when the gateway
reports no college it replies 400, in both cases without consulting the cache
— even when a fresh cache row exists. -/
theorem c2_cache_hit_requires_gateway
    (userId : String) (gw : EligGw) (nowT : Nat) (db : EligDb) (c : EligCacheRow)
    (hcol : resolvesCollege gw) (hc : db.cache = some c)
    (hfresh : nowT < c.expiresAt) :
    (checkEligibility userId gw nowT db).resp.status = 200 ∧
    (checkEligibility userId gw nowT db).resp.canCreate = c.canCreate ∧
    (checkEligibility userId gw nowT db).resp.badgeCount = some c.badgeCount ∧
    (checkEligibility userId gw nowT db).resp.categories = some c.categories ∧
    (checkEligibility userId gw nowT db).resp.lastChecked = some c.lastChecked ∧
    (checkEligibility userId gw nowT db).db = db ∧
    (checkEligibility userId gw nowT db).queriedAwards = false ∧
    (checkEligibility userId EligGw.err nowT db).resp.status = 500 ∧
    (checkEligibility userId EligGw.err nowT db).resp.canCreate = false ∧
    (checkEligibility userId (EligGw.ok none) nowT db).resp.status = 400 ∧
    (∀ u : GwUserE, sTruthy u.collegeId = false →
      (checkEligibility userId (EligGw.ok (some u)) nowT db).resp.status = 400) := by
  obtain ⟨u, rfl, hcid⟩ := hcol
  refine ⟨?_, ?_, ?_, ?_, ?_, ?_, ?_, rfl, rfl, rfl, ?_⟩
  all_goals try simp [checkEligibility, Option.bind, hcid, hc, hfresh]
  intro u2 hu2
  simp [checkEligibility, Option.bind, hu2]

/-- C2 witness: the amended theorem at a concrete gateway-resolvable request
with the concrete fresh cache row. -/
theorem c2_cache_hit_requires_gateway_witness :
    (checkEligibility "u2" (EligGw.ok (some ⟨some "college1"⟩)) 5 c2Db).resp.status = 200 ∧
    (checkEligibility "u2" (EligGw.ok (some ⟨some "college1"⟩)) 5 c2Db).resp.canCreate
      = c2CacheRow.canCreate ∧
    (checkEligibility "u2" (EligGw.ok (some ⟨some "college1"⟩)) 5 c2Db).queriedAwards
      = false := by
  have h := c2_cache_hit_requires_gateway "u2" (EligGw.ok (some ⟨some "college1"⟩)) 5 c2Db
    c2CacheRow ⟨⟨some "college1"⟩, rfl, by decide⟩ rfl (by decide)
  exact ⟨h.1, h.2.1, h.2.2.2.2.2.2.1⟩

/-- C3: every award request whose target user does not exist upstream (the
gateway replies 404 or with an empty body) is rejected with 404; every other
gateway failure (network error, non-404 HTTP error) is rejected with 500
("Failed to verify user"); in both cases no StudentBadge row and no Profile
row is persisted (the state is unchanged) and no notification is attempted. -/
theorem c3_award_rejects_unknown_user
    (gw : GwAwardRes) (autoPostFlag : Option String) (post : PostOutcome)
    (req : AwardReq) (caller freshAwardId : String) (nowT : Nat) (st : AwardState)
    (h : gwReportsNoUser gw ∨ gwOtherFailure gw) :
    (gwReportsNoUser gw →
      (awardBadge gw autoPostFlag post req caller freshAwardId nowT st).status = 404) ∧
    (gwOtherFailure gw →
      (awardBadge gw autoPostFlag post req caller freshAwardId nowT st).status = 500) ∧
    (awardBadge gw autoPostFlag post req caller freshAwardId nowT st).state = st ∧
    (awardBadge gw autoPostFlag post req caller freshAwardId nowT st).eventAttempted
      = false := by
  rcases h with h | h
  · rcases h with h404 | h404 <;> subst h404
    · refine ⟨fun _ => rfl, fun hof => ?_, rfl, rfl⟩
      rcases hof with hne | ⟨s, _, hne⟩ <;> cases hne
    · refine ⟨fun _ => by simp [awardBadge], fun hof => ?_, by simp [awardBadge],
        by simp [awardBadge]⟩
      rcases hof with hne | ⟨s, hs, hne⟩
      · cases hne
      · injection hne with hs'
        exact absurd hs'.symm hs
  · rcases h with hne | ⟨s, hs, hgw⟩
    · subst hne
      refine ⟨fun hnu => ?_, fun _ => rfl, rfl, rfl⟩
      rcases hnu with hne | hne <;> cases hne
    · subst hgw
      refine ⟨fun hnu => ?_, fun _ => by simp [awardBadge, hs], by simp [awardBadge, hs],
        by simp [awardBadge, hs]⟩
      rcases hnu with hne | hne
      · cases hne
      · injection hne with hs'
        exact absurd hs' hs

/-- Concrete award request for the C3 and C8 witnesses. -/
def exAwardReq : AwardReq :=
  { badgeDefinitionId := "bd1"
    userId := "stu1"
    reason := "great work"
    projectId := none
    eventId := none
    awardedByName := some "Prof. X" }

/-- Concrete award-table state for the C3 and C8 witnesses. -/
def exAwardState : AwardState :=
  { profileUserIds := ["other1"], studentBadges := [] }

/-- C3 witness: a gateway 404 at a concrete request leaves the state
untouched and replies 404. -/
theorem c3_award_rejects_unknown_user_witness :
    (awardBadge (GwAwardRes.httpErr 404) none PostOutcome.success exAwardReq
      "fac1" "aw1" 0 exAwardState).status = 404 ∧
    (awardBadge (GwAwardRes.httpErr 404) none PostOutcome.success exAwardReq
      "fac1" "aw1" 0 exAwardState).state = exAwardState := by
  have h := c3_award_rejects_unknown_user (GwAwardRes.httpErr 404) none PostOutcome.success
    exAwardReq "fac1" "aw1" 0 exAwardState (Or.inl (Or.inr rfl))
  exact ⟨h.1 (Or.inr rfl), h.2.2.1⟩

/-- C8: once the gateway verified the target user (a 2xx response with a
body), the award is persisted and the response is 201 for every notification
outcome — network failure, non-2xx from the network service, success, or the
`BADGE_AUTO_POST_ENABLED = 'false'` flag; the persisted state never depends
on the notification outcome, and with the flag set to `'false'` the outbound
`fetch` is not attempted at all. -/
theorem c8_notification_never_affects_award
    (body : Option StudentInfoA) (autoPostFlag : Option String) (post : PostOutcome)
    (req : AwardReq) (caller freshAwardId : String) (nowT : Nat) (st : AwardState) :
    (awardBadge (GwAwardRes.ok (some body)) autoPostFlag post req caller freshAwardId
        nowT st).status = 201 ∧
    mkAwardRow req caller freshAwardId nowT ∈
      (awardBadge (GwAwardRes.ok (some body)) autoPostFlag post req caller freshAwardId
        nowT st).state.studentBadges ∧
    (awardBadge (GwAwardRes.ok (some body)) autoPostFlag post req caller freshAwardId
        nowT st).state
      = (awardBadge (GwAwardRes.ok (some body)) autoPostFlag PostOutcome.success req
          caller freshAwardId nowT st).state ∧
    (autoPostFlag = some "false" →
      (awardBadge (GwAwardRes.ok (some body)) autoPostFlag post req caller freshAwardId
        nowT st).eventAttempted = false) := by
  refine ⟨rfl, ?_, rfl, fun hflag => ?_⟩
  · simp [awardBadge]
  · simp [awardBadge, createBadgeAwardPost, hflag]

/-- C8 witness: with the flag disabled and the network service failing, the
concrete award still persists, the response is 201, and no event goes out. -/
theorem c8_notification_never_affects_award_witness :
    (awardBadge (GwAwardRes.ok (some none)) (some "false") PostOutcome.netFail exAwardReq
      "fac1" "aw1" 0 exAwardState).status = 201 ∧
    mkAwardRow exAwardReq "fac1" "aw1" 0 ∈
      (awardBadge (GwAwardRes.ok (some none)) (some "false") PostOutcome.netFail exAwardReq
        "fac1" "aw1" 0 exAwardState).state.studentBadges ∧
    (awardBadge (GwAwardRes.ok (some none)) (some "false") PostOutcome.netFail exAwardReq
      "fac1" "aw1" 0 exAwardState).eventAttempted = false := by
  have h := c8_notification_never_affects_award none (some "false") PostOutcome.netFail
    exAwardReq "fac1" "aw1" 0 exAwardState
  exact ⟨h.1, h.2.1, h.2.2.2 rfl⟩

/-- `a || b || ''` with an absent second operand is `a || ''`. -/
theorem jsChain2_none (a : Option String) : jsChain2 a none = jsOrS a "" := by
  cases a with
  | none => rfl
  | some s =>
      by_cases hs : s = "" <;> simp [jsChain2, jsOrS, sTruthy, hs]

/-- C4: the profile-enrichment reads (`GET /v1/profile/me` and
`GET /v1/profile/user/:userId`) never fail when the Identity Gateway call
fails (timeout, non-2xx, network error — all absorbed by the handler's
`catch`): the composed view is still returned, its identity-derived fields
are empty/defaulted, its locally stored fields are served, and the stored
profile is not written. -/
theorem c4_enrichment_tolerates_gateway_failure
    (callerSub userId freshId : String) (nowT : Nat) (stored : Option ProfileRow)
    (cg : CollegeFetch) :
    ((getProfileMe callerSub freshId nowT stored GwEnrich.err cg).1.displayName = "" ∧
     (getProfileMe callerSub freshId nowT stored GwEnrich.err cg).1.email = "" ∧
     (getProfileMe callerSub freshId nowT stored GwEnrich.err cg).1.avatarUrl = "" ∧
     (getProfileMe callerSub freshId nowT stored GwEnrich.err cg).1.roles = [] ∧
     (getProfileMe callerSub freshId nowT stored GwEnrich.err cg).1.collegeId = "" ∧
     (getProfileMe callerSub freshId nowT stored GwEnrich.err cg).1.collegeMemberId = "" ∧
     (getProfileMe callerSub freshId nowT stored GwEnrich.err cg).1.collegeName = none ∧
     (getProfileMe callerSub freshId nowT stored GwEnrich.err cg).1.name
       = jsOrS (stored.bind (fun p => p.name)) "" ∧
     (getProfileMe callerSub freshId nowT stored GwEnrich.err cg).1.skills
       = (stored.map (fun p => p.skills)).getD [] ∧
     (getProfileMe callerSub freshId nowT stored GwEnrich.err cg).2 = stored) ∧
    ((getProfileUserById userId freshId nowT stored GwEnrich.err cg).1.displayName = "" ∧
     (getProfileUserById userId freshId nowT stored GwEnrich.err cg).1.email = "" ∧
     (getProfileUserById userId freshId nowT stored GwEnrich.err cg).1.avatarUrl = "" ∧
     (getProfileUserById userId freshId nowT stored GwEnrich.err cg).1.roles = [] ∧
     (getProfileUserById userId freshId nowT stored GwEnrich.err cg).1.collegeId = "" ∧
     (getProfileUserById userId freshId nowT stored GwEnrich.err cg).1.collegeName = none ∧
     (getProfileUserById userId freshId nowT stored GwEnrich.err cg).1.name
       = jsOrS (stored.bind (fun p => p.name)) "" ∧
     (getProfileUserById userId freshId nowT stored GwEnrich.err cg).2 = stored) :=
  ⟨⟨rfl, rfl, rfl, rfl, rfl, rfl, rfl, jsChain2_none _, rfl, rfl⟩,
   ⟨rfl, rfl, rfl, rfl, rfl, rfl, jsChain2_none _, rfl⟩⟩

/-- C5: for a user with no stored profile and a gateway returning a display
name, the first enrichment read creates a profile whose `name` is that
display name and serves it; a second read then serves the stored name even if
the gateway now returns a different display name, and writes nothing; in
general the backfill fires only when the stored name is falsy, and the
composed response prefers a truthy stored name over the gateway value. -/
theorem c5_name_backfill_idempotent
    (userId fid1 fid2 : String) (t1 t2 : Nat) (u1 u2 : UserInfoE)
    (cg1 cg2 : CollegeFetch) (d : String) (hd : d ≠ "")
    (h1 : u1.displayName = some d) :
    (enrichHandler userId fid1 t1 none (GwEnrich.ok (some u1)) cg1).2
      = some (blankProfileWithName fid1 userId (some d) t1) ∧
    (enrichHandler userId fid1 t1 none (GwEnrich.ok (some u1)) cg1).1.name = d ∧
    (enrichHandler userId fid2 t2
        (enrichHandler userId fid1 t1 none (GwEnrich.ok (some u1)) cg1).2
        (GwEnrich.ok (some u2)) cg2).1.name = d ∧
    (enrichHandler userId fid2 t2
        (enrichHandler userId fid1 t1 none (GwEnrich.ok (some u1)) cg1).2
        (GwEnrich.ok (some u2)) cg2).2
      = (enrichHandler userId fid1 t1 none (GwEnrich.ok (some u1)) cg1).2 ∧
    (∀ (p : ProfileRow) (gw : GwEnrich) (cg : CollegeFetch) (fid : String) (t : Nat),
      sTruthy p.name = true →
        (enrichHandler userId fid t (some p) gw cg).2 = some p ∧
        (enrichHandler userId fid t (some p) gw cg).1.name = p.name.getD "") := by
  have hstep : (enrichHandler userId fid1 t1 none (GwEnrich.ok (some u1)) cg1).2
      = some (blankProfileWithName fid1 userId (some d) t1) := by
    simp [enrichHandler, h1, sTruthy, hd]
  refine ⟨hstep, ?_, ?_, ?_, ?_⟩
  · simp [enrichHandler, h1, sTruthy, hd, jsChain2, jsOrS, blankProfileWithName]
  · rw [hstep]
    simp [enrichHandler, blankProfileWithName, sTruthy, hd, jsChain2, jsOrS]
  · rw [hstep]
    simp [enrichHandler, blankProfileWithName, sTruthy, hd]
  · intro p gw cg fid t hname
    cases gw with
    | err => exact ⟨rfl, by simp [enrichHandler, jsChain2, hname]⟩
    | ok uo =>
        cases uo with
        | none => exact ⟨rfl, by simp [enrichHandler, jsChain2, hname]⟩
        | some u =>
            constructor
            · simp [enrichHandler, hname]
            · simp [enrichHandler, jsChain2, hname]

/-- Gateway user record for the C5 witness, first read. -/
def exUserAlice : UserInfoE :=
  { displayName := some "Alice", email := none, avatarUrl := none, collegeId := none,
    collegeMemberId := none, department := none, year := none, roles := [],
    createdAt := none }

/-- Gateway user record for the C5 witness, second read (a different
display name). -/
def exUserBob : UserInfoE :=
  { displayName := some "Bob", email := none, avatarUrl := none, collegeId := none,
    collegeMemberId := none, department := none, year := none, roles := [],
    createdAt := none }

/-- C5 witness: the first read at a concrete empty store backfills "Alice";
the second read still serves "Alice" although the gateway now says "Bob". -/
theorem c5_name_backfill_idempotent_witness :
    (enrichHandler "user1" "p1" 7 none (GwEnrich.ok (some exUserAlice)) CollegeFetch.err).2
      = some (blankProfileWithName "p1" "user1" (some "Alice") 7) ∧
    (enrichHandler "user1" "p1" 7 none (GwEnrich.ok (some exUserAlice)) CollegeFetch.err).1.name
      = "Alice" ∧
    (enrichHandler "user1" "p2" 8
        (enrichHandler "user1" "p1" 7 none (GwEnrich.ok (some exUserAlice)) CollegeFetch.err).2
        (GwEnrich.ok (some exUserBob)) CollegeFetch.err).1.name = "Alice" := by
  have h := c5_name_backfill_idempotent "user1" "p1" "p2" 7 8 exUserAlice exUserBob
    CollegeFetch.err CollegeFetch.err "Alice" (by decide) rfl
  exact ⟨h.1, h.2.1, h.2.2.1⟩

/-- When no row with the given id belongs to the caller, the ownership lookup
(`findFirst({ id, profile: { userId: caller } })`) finds nothing. -/
theorem find_guard_none {α : Type} (l : List α) (idOf ownerOf : α → String)
    (i c : String) (h : ∀ r ∈ l, idOf r = i → ownerOf r ≠ c) :
    l.find? (fun r => idOf r == i && ownerOf r == c) = none := by
  rw [List.find?_eq_none]
  intro x hx hpx
  rw [Bool.and_eq_true, beq_iff_eq, beq_iff_eq] at hpx
  exact h x hx hpx.1 hpx.2

/-- C6: every update or delete on a PersonalProject, Publication or
Experience whose target row does not belong to the caller — whether the id
exists for another user or does not exist at all — replies 404 and leaves the
table unmodified, for all six guarded endpoints. -/
theorem c6_ownership_guard_yields_404
    (projects : List PersonalProjectRow) (pubs : List PublicationRow)
    (exps : List ExperienceRow)
    (caller projectId publicationId experienceId : String)
    (pin : PersonalProjectInput) (bin : PublicationInput) (ein : ExperienceInput)
    (hp : ∀ r ∈ projects, r.id = projectId → r.userId ≠ caller)
    (hb : ∀ r ∈ pubs, r.id = publicationId → r.userId ≠ caller)
    (he : ∀ r ∈ exps, r.id = experienceId → r.userId ≠ caller) :
    updatePersonalProject projects caller projectId pin = (404, projects) ∧
    deletePersonalProject projects caller projectId = (404, projects) ∧
    updatePublication pubs caller publicationId bin = (404, pubs) ∧
    deletePublication pubs caller publicationId = (404, pubs) ∧
    updateExperience exps caller experienceId ein = (404, exps) ∧
    deleteExperience exps caller experienceId = (404, exps) := by
  have h1 := find_guard_none projects (fun r => r.id) (fun r => r.userId)
    projectId caller hp
  have h2 := find_guard_none pubs (fun r => r.id) (fun r => r.userId)
    publicationId caller hb
  have h3 := find_guard_none exps (fun r => r.id) (fun r => r.userId)
    experienceId caller he
  refine ⟨?_, ?_, ?_, ?_, ?_, ?_⟩
  · simp [updatePersonalProject, h1]
  · simp [deletePersonalProject, h1]
  · simp [updatePublication, h2]
  · simp [deletePublication, h2]
  · simp [updateExperience, h3]
  · unfold deleteExperience
    cases hfind : exps.find? (fun r => r.id == experienceId) with
    | none => rfl
    | some e =>
        have hmem : e ∈ exps := List.mem_of_find?_eq_some hfind
        have hid : e.id = experienceId := by
          have := List.find?_some hfind
          rwa [beq_iff_eq] at this
        have hne : e.userId ≠ caller := he e hmem hid
        simp [hne]

/-- C6 witness: a one-row table owned by another user, targeted both at that
row's id and at an absent id, yields 404 everywhere with tables unchanged. -/
theorem c6_ownership_guard_yields_404_witness :
    updatePersonalProject [⟨"pr1", "owner1", "t", "d", none, none, none, 0⟩]
        "intruder" "pr1" ⟨"t2", "d2", none, none, none⟩
      = (404, [⟨"pr1", "owner1", "t", "d", none, none, none, 0⟩]) ∧
    deletePublication [] "intruder" "pub1" = (404, []) ∧
    deleteExperience [⟨"ex1", "owner1", "AI", "Expert", none, none⟩] "intruder" "ex1"
      = (404, [⟨"ex1", "owner1", "AI", "Expert", none, none⟩]) := by
  have h := c6_ownership_guard_yields_404
    [⟨"pr1", "owner1", "t", "d", none, none, none, 0⟩] []
    [⟨"ex1", "owner1", "AI", "Expert", none, none⟩]
    "intruder" "pr1" "pub1" "ex1"
    ⟨"t2", "d2", none, none, none⟩ ⟨"t2", 2020, none⟩ ⟨"AI", "Expert", none, none⟩
    (by decide) (by intro r hr; cases hr) (by decide)
  exact ⟨h.1, h.2.2.2.1, h.2.2.2.2.2⟩

/-- C7: every request to a `requireRole`-guarded endpoint carrying a missing
or invalid bearer credential receives 401 (not 500, not 403): `requireAuth`
sends the 401, and although `requireRole` then dereferences the undefined
`request.user` (throwing), the framework cannot overwrite an already-sent
reply; the 403 role check can only run once the credential was accepted. -/
theorem c7_role_gated_bad_credential_401
    (verify : String → Option TokenPayload) (roles : List String) (req : AuthReq)
    (h : missingOrInvalidCred verify req) :
    ∃ r : Resp, requireRole verify roles req = some r ∧ r.status = 401 := by
  obtain ⟨ah⟩ := req
  cases ah with
  | none =>
      exact ⟨{ status := 401, message := "Missing authorization token" }, rfl, rfl⟩
  | some auth =>
      rcases h with hsw | hv
      · exact ⟨{ status := 401, message := "Missing authorization token" },
          by simp [requireRole, requireAuth, replySend, hsw], rfl⟩
      · by_cases hsw : auth.startsWith "Bearer "
        · exact ⟨{ status := 401, message := "Invalid or expired token" },
            by simp [requireRole, requireAuth, replySend, hsw, hv], rfl⟩
        · exact ⟨{ status := 401, message := "Missing authorization token" },
            by simp [requireRole, requireAuth, replySend, hsw], rfl⟩

/-- C7 witness: a concrete bearer token every verification rejects yields 401
from a role-gated chain requiring FACULTY. -/
theorem c7_role_gated_bad_credential_401_witness :
    ∃ r : Resp,
      requireRole (fun _ => none) ["FACULTY"] ⟨some "Bearer abc"⟩ = some r ∧
      r.status = 401 :=
  c7_role_gated_bad_credential_401 (fun _ => none) ["FACULTY"] ⟨some "Bearer abc"⟩
    (Or.inr rfl)

/-- A string has positive length exactly when it is not the empty string. -/
theorem length_pos_iff_ne_empty (s : String) : (0 < s.length) ↔ s ≠ "" := by
  cases s with
  | mk data =>
      cases data with
      | nil => simp [String.length]
      | cons c cs =>
          constructor
          · intro _ he
            have : (c :: cs : List Char) = [] := congrArg String.data he
            cases this
          · intro _
            simp [String.length]

/-- Filtering out a value that is not in the list is the identity. -/
theorem filter_bne_of_not_mem (l : List String) (x : String) (h : x ∉ l) :
    l.filter (fun s => !(s == x)) = l := by
  rw [List.filter_eq_self]
  intro a ha
  have hne : a ≠ x := fun he => h (he ▸ ha)
  simp [hne]

/-- C9: on the single-skill endpoints, adding a skill already present under
case-insensitive comparison replies 400 and leaves the stored list unchanged;
adding any skill when the list already holds 50 entries replies 400 and
leaves the list unchanged; and removing a skill not present in the list is a
no-op returning the unchanged list. -/
theorem c9_single_skill_endpoints
    : (∀ (cur : List String) (raw : String),
        cur.any (fun s => jsToLower s == jsToLower (jsTrim raw)) = true →
          addSkill (some cur) raw
            = { status := 400, stored := some cur, responseSkills := none }) ∧
      (∀ (cur : List String) (raw : String), cur.length = 50 →
        addSkill (some cur) raw
          = { status := 400, stored := some cur, responseSkills := none }) ∧
      (∀ (cur : List String) (sk : String), sk ∉ cur →
        removeSkill (some cur) sk
          = { status := 200, stored := some cur, responseSkills := some cur }) := by
  refine ⟨?_, ?_, ?_⟩
  · intro cur raw hdup
    by_cases hc : jsTrim raw = ""
    · simp [addSkill, hc]
    · simp [addSkill, hc, hdup]
  · intro cur raw hlen
    by_cases hc : jsTrim raw = ""
    · simp [addSkill, hc]
    · by_cases hdup : cur.any (fun s => jsToLower s == jsToLower (jsTrim raw)) = true
      · simp [addSkill, hc, hdup]
      · simp [addSkill, hc, hdup, hlen]
  · intro cur sk hmem
    simp [removeSkill, filter_bne_of_not_mem cur sk hmem]

/-- C9 witness: the three single-skill behaviors at concrete lists — a
case-insensitive duplicate, a 50-entry list, and a removal of an absent
skill. -/
theorem c9_single_skill_endpoints_witness :
    addSkill (some ["Java"]) " JAVA "
      = { status := 400, stored := some ["Java"], responseSkills := none } ∧
    addSkill (some (List.replicate 50 "s")) "New"
      = { status := 400, stored := some (List.replicate 50 "s"),
          responseSkills := none } ∧
    removeSkill (some ["Python"]) "Rust"
      = { status := 200, stored := some ["Python"],
          responseSkills := some ["Python"] } := by
  have h := c9_single_skill_endpoints
  exact ⟨h.1 ["Java"] " JAVA " (by decide),
         h.2.1 (List.replicate 50 "s") "New" (by simp),
         h.2.2 ["Python"] "Rust" (by decide)⟩

/-- C10: the bulk skills update stores exactly the submitted list with every
entry whitespace-trimmed, empty entries removed, and the result truncated to
its first 50 entries in submission order, replying 200; no duplicate check is
applied, so the bulk update stores duplicates (here "Java" twice) that the
single-add endpoint rejects on the same list. -/
theorem c10_bulk_skills_no_dedup
    (stored : Option (List String)) (skills : List String) :
    updateSkills stored skills
      = { status := 200, stored := some (cleanSkillsSpec skills),
          responseSkills := some (cleanSkillsSpec skills) } ∧
    updateSkills none ["Java", " Java ", "", "  "]
      = { status := 200, stored := some ["Java", "Java"],
          responseSkills := some ["Java", "Java"] } ∧
    (addSkill (some ["Java"]) " Java ").status = 400 := by
  have hclean : ∀ l : List String,
      (l.filter (fun s => 0 < s.length)) = (l.filter (fun s => s ≠ "")) := by
    intro l
    refine List.filter_congr ?_
    intro a _
    simp [length_pos_iff_ne_empty a]
  refine ⟨?_, by decide, by decide⟩
  simp [updateSkills, cleanSkillsSpec, hclean]

/-- C10 witness: the general equation at a concrete submission containing
blanks, padding and 52 entries. -/
theorem c10_bulk_skills_no_dedup_witness :
    updateSkills (some ["old"]) (["  a  ", "", "b"] ++ List.replicate 49 "c")
      = { status := 200,
          stored := some (cleanSkillsSpec (["  a  ", "", "b"] ++ List.replicate 49 "c")),
          responseSkills :=
            some (cleanSkillsSpec (["  a  ", "", "b"] ++ List.replicate 49 "c")) } :=
  (c10_bulk_skills_no_dedup (some ["old"]) (["  a  ", "", "b"] ++ List.replicate 49 "c")).1

end NexusProfile
